import Mathlib

/-!
Verification development for the bnb4 model-converter GUI (`gui.py`).

The repository is a tkinter front end that spawns one background worker
process (`download_worker`) which fetches a model, quantizes it to 4 bit via
an external library and saves the result, streaming tagged tuples back over
a pipe.  We embed:

* the worker as a computation in a small state-plus-exception monad `WM`
  whose state records the messages sent over the pipe (`trace`), the calls
  made into the external libraries (`calls`) and how many times the
  cancellation flag has been observed (`checks`);
* the GUI handlers (`start`, `stop`, `check_pipe` message processing,
  `load_settings`, `save_settings`, `on_model_change`) as pure functions on
  an explicit `GuiState`;
* the static model catalog verbatim.

External library behaviour (network fetch, load, save) is an oracle `Env`
giving each call's outcome; the cancellation flag is modelled by the index
of the first `is_set()` observation that returns true (the flag is set once
per job and never cleared during a run, so its observations are monotone).
-/

/-- A message sent by the worker over the pipe: exactly the tagged tuples
('log', s), ('progress', pct, stage), ('status', s), ('done', None) of
`gui.py`. -/
inductive Msg where
  | log : String → Msg
  | progress : Nat → String → Msg
  | status : String → Msg
  | done : Msg
deriving DecidableEq

/-- The `BitsAndBytesConfig` the worker constructs (gui.py lines 74-82);
the compute dtype is recorded as a string ("bfloat16"/"float16"). -/
structure BnbConfig where
  load_in_4bit : Bool
  bnb_4bit_use_double_quant : Bool
  bnb_4bit_quant_type : String
  bnb_4bit_compute_dtype : String
deriving DecidableEq

/-- An observable call from the worker into the external libraries or the
file system, with the arguments the worker passes. -/
inductive ExtCall where
  | mkdirOutDir : String → ExtCall
  | loadVisionModel : String → Option BnbConfig → String → Bool → ExtCall
  | loadCausalModel : String → Option BnbConfig → String → Bool → ExtCall
  | loadTokenizer : String → Bool → ExtCall
  | loadImageProcessor : String → Bool → Bool → ExtCall
  | mkdirFinalPath : String → ExtCall
  | saveModel : String → Bool → ExtCall
  | saveTokenizer : String → ExtCall
  | saveImageProcessor : String → ExtCall
deriving DecidableEq

/-- Outcome of one external call: returns normally or raises an exception
with the given text. -/
inductive Outcome where
  | ok : Outcome
  | err : String → Outcome
deriving DecidableEq

/-- Oracle for everything outside the repository's own code: CUDA
capability flags and the outcome of each external call the worker makes. -/
structure Env where
  cudaAvailable : Bool
  bf16Supported : Bool
  mkdirOut : Outcome
  visionLoad : Outcome
  causalLoad : Outcome
  tokenizerLoad : Outcome
  imageProcLoad : Outcome
  mkdirFinal : Outcome
  modelSave : Outcome
  tokenizerSave : Outcome
  imageProcSave : Outcome
  tracebackText : String
deriving DecidableEq

/-- The job configuration dict built in `ConverterGUI.start` (lines 546-554)
and consumed by `download_worker`. -/
structure Cfg where
  TARGET_MODEL_URL : String
  OUTPUT_PATH : String
  MODEL_TYPE : String
  SAFE_SERIALIZATION : Bool
  MAX_SEQ_LENGTH : Nat
  FORCE_CPU : Bool
  DEVICE : String
deriving DecidableEq

/-- Worker-side state: number of `stop_evt.is_set()` observations made so
far, the pipe messages sent, and the external calls made. -/
structure WState where
  checks : Nat
  trace : List Msg
  calls : List ExtCall
deriving DecidableEq

/-- A Python exception in the worker: `KeyboardInterrupt` (raised by the
send helpers when the stop flag is set) or any other `Exception` with its
text. -/
inductive Exc where
  | kbint : Exc
  | exc : String → Exc
deriving DecidableEq

/-- The worker monad: state passing plus exceptions. -/
def WM (α : Type) : Type := WState → Except Exc α × WState

def WM.pure {α : Type} (a : α) : WM α := fun s => (Except.ok a, s)

def WM.bind {α β : Type} (m : WM α) (f : α → WM β) : WM β := fun s =>
  match m s with
  | (Except.ok a, s1) => f a s1
  | (Except.error e, s1) => (Except.error e, s1)

instance : Monad WM where
  pure := WM.pure
  bind := WM.bind

theorem WM.bind_def {α β : Type} (m : WM α) (f : α → WM β) :
    (m >>= f) = WM.bind m f := rfl

theorem WM.pure_def {α : Type} (a : α) : (Pure.pure a : WM α) = WM.pure a := rfl

/-- `raise e`. -/
def WM.throwE {α : Type} (e : Exc) : WM α := fun s => (Except.error e, s)

/-- `try body except: handler` (the handler receives the exception). -/
def WM.tryCatchE {α : Type} (m : WM α) (h : Exc → WM α) : WM α := fun s =>
  match m s with
  | (Except.ok a, s1) => (Except.ok a, s1)
  | (Except.error e, s1) => h e s1

/-- Everything the worker run depends on: the job configuration, the
external-world oracle, and the cancellation flag (the index of the first
`is_set()` observation that returns true, `none` if the job is never
cancelled). -/
structure RunCtx where
  cfg : Cfg
  env : Env
  cancelThreshold : Option Nat
deriving DecidableEq

/-- Whether the n-th `stop_evt.is_set()` observation returns true. Within
one run the flag is only ever set, never cleared, so the observations are
monotone in n. -/
def isSetAt (t : Option Nat) (n : Nat) : Bool :=
  match t with
  | none => false
  | some k => decide (k ≤ n)

/-- The `if stop_evt.is_set(): raise KeyboardInterrupt()` guard shared by
`send_log` / `send_progress` / `send_status` (gui.py lines 34-47). -/
def checkStop (ctx : RunCtx) : WM Unit := fun s =>
  if isSetAt ctx.cancelThreshold s.checks
  then (Except.error Exc.kbint, { s with checks := s.checks + 1 })
  else (Except.ok (), { s with checks := s.checks + 1 })

/-- `conn.send(m)`: append one message to the pipe trace. -/
def emit (m : Msg) : WM Unit := fun s =>
  (Except.ok (), { s with trace := s.trace ++ [m] })

/-- Record one external call. -/
def record (c : ExtCall) : WM Unit := fun s =>
  (Except.ok (), { s with calls := s.calls ++ [c] })

/-- The outcome of an external call, as an effect. -/
def libCall (o : Outcome) : WM Unit :=
  match o with
  | Outcome.ok => Pure.pure ()
  | Outcome.err m => WM.throwE (Exc.exc m)

def send_log (ctx : RunCtx) (msg : String) : WM Unit := do
  checkStop ctx
  emit (Msg.log msg)

def send_progress (ctx : RunCtx) (pct : Nat) (stage : String) : WM Unit := do
  checkStop ctx
  emit (Msg.progress pct stage)

def send_status (ctx : RunCtx) (st : String) : WM Unit := do
  checkStop ctx
  emit (Msg.status st)

/-- Python `s.strip()`: drop whitespace from both ends.  (Written over the
character list so that it is structurally recursive and evaluates inside the
kernel.) -/
def pyStrip (s : String) : String :=
  String.mk (((s.data.dropWhile Char.isWhitespace).reverse.dropWhile
    Char.isWhitespace).reverse)

/-- Python `s.startswith(pre)`. -/
def pyStartsWith (s pre : String) : Bool := pre.data.isPrefixOf s.data

/-- Python `url.rstrip('/')`: drop trailing slashes. -/
def rstripSlashes (s : String) : String :=
  String.mk ((s.data.reverse.dropWhile (fun c => c == '/')).reverse)

/-- Python `s.split('/')` on a character list: split at every slash,
keeping empty pieces, never returning an empty list. -/
def splitSlashAux : List Char → List Char → List String
  | [], acc => [String.mk acc.reverse]
  | c :: rest, acc =>
      if c == '/' then String.mk acc.reverse :: splitSlashAux rest []
      else splitSlashAux rest (c :: acc)

/-- Python `url.rstrip('/').split('/')[-1]` (gui.py line 51). -/
def repoName (url : String) : String :=
  (splitSlashAux (rstripSlashes url).data []).getLastD ""

/-- `Path(a) / b` rendered as a string. -/
def pathJoin (a b : String) : String := a ++ "/" ++ b

/-- The `device_map` the worker computes from the configuration
(gui.py lines 60-71). -/
def workerDeviceMap (cfg : Cfg) : String :=
  if cfg.FORCE_CPU then "cpu"
  else if cfg.DEVICE == "cpu" then "cpu"
  else if cfg.DEVICE == "cuda" then "cuda"
  else "auto"

/-- The log line the device-selection branch emits (gui.py lines 60-71). -/
def deviceLogText (cfg : Cfg) : String :=
  if cfg.FORCE_CPU then "🖥️ Принудительное использование CPU"
  else if cfg.DEVICE == "cpu" then "🖥️ Использование CPU по настройкам"
  else if cfg.DEVICE == "cuda" then "🎮 Принудительное использование GPU"
  else "🔄 Автоматический выбор устройства"

/-- The `BitsAndBytesConfig` of gui.py lines 74-82. -/
def mkBnbConfig (env : Env) (device_map : String) : BnbConfig :=
  { load_in_4bit := true
    bnb_4bit_use_double_quant := true
    bnb_4bit_quant_type := "nf4"
    bnb_4bit_compute_dtype :=
      if env.cudaAvailable && env.bf16Supported && device_map != "cpu"
      then "bfloat16" else "float16" }

/-- `bnb_config if device_map != "cpu" else None` (gui.py lines 92, 102). -/
def quantArgOf (env : Env) (cfg : Cfg) : Option BnbConfig :=
  if workerDeviceMap cfg != "cpu" then some (mkBnbConfig env (workerDeviceMap cfg))
  else none

/-- `out_dir / f"{repo}-bnb4"` (gui.py line 134). -/
def finalPathOf (cfg : Cfg) : String :=
  pathJoin cfg.OUTPUT_PATH (repoName cfg.TARGET_MODEL_URL ++ "-bnb4")

/-- The device-selection log of gui.py lines 60-71 (one branch is taken,
each sends one log line). -/
def deviceStep (ctx : RunCtx) : WM Unit :=
  if ctx.cfg.FORCE_CPU then send_log ctx "🖥️ Принудительное использование CPU"
  else if ctx.cfg.DEVICE == "cpu" then send_log ctx "🖥️ Использование CPU по настройкам"
  else if ctx.cfg.DEVICE == "cuda" then send_log ctx "🎮 Принудительное использование GPU"
  else send_log ctx "🔄 Автоматический выбор устройства"

/-- The model-loading try/except of gui.py lines 88-106: a vision
configuration tries the vision loader and on any `Exception` falls back to
the causal loader; any other configuration raises `ValueError` inside the
try and therefore always uses the causal loader.  (`except Exception` does
not catch `KeyboardInterrupt`.) -/
def loadModelStep (ctx : RunCtx) (q : Option BnbConfig) (dm : String) : WM Unit :=
  if ctx.cfg.MODEL_TYPE == "vision" then
    WM.tryCatchE
      (do record (ExtCall.loadVisionModel ctx.cfg.TARGET_MODEL_URL q dm true)
          libCall ctx.env.visionLoad)
      (fun e =>
        match e with
        | Exc.kbint => WM.throwE Exc.kbint
        | Exc.exc _ => do
            record (ExtCall.loadCausalModel ctx.cfg.TARGET_MODEL_URL q dm true)
            libCall ctx.env.causalLoad)
  else do
    record (ExtCall.loadCausalModel ctx.cfg.TARGET_MODEL_URL q dm true)
    libCall ctx.env.causalLoad

/-- The image-processor block of gui.py lines 113-124.  The bare `except:`
catches every exception, `KeyboardInterrupt` included; the result is whether
`image_processor` ended up non-None. -/
def imageProcStep (ctx : RunCtx) : WM Bool :=
  if ctx.cfg.MODEL_TYPE == "vision" then
    WM.tryCatchE
      (do send_status ctx "Загрузка процессора изображений"
          send_progress ctx 55 ""
          record (ExtCall.loadImageProcessor ctx.cfg.TARGET_MODEL_URL true true)
          libCall ctx.env.imageProcLoad
          Pure.pure true)
      (fun _ => do
        send_log ctx "ℹ️ Процессор изображений не найден (возможно, текстовая модель)"
        Pure.pure false)
  else Pure.pure false

/-- The tail of the worker from the memory-cleanup status onwards
(gui.py lines 127-146), parametrised by whether an image processor was
loaded. -/
def saveStep (ctx : RunCtx) (imageProcessor : Bool) : WM Unit := do
  send_status ctx "Очистка памяти"
  send_progress ctx 70 ""
  record (ExtCall.mkdirFinalPath (finalPathOf ctx.cfg))
  libCall ctx.env.mkdirFinal
  send_status ctx "Сохранение модели"
  send_progress ctx 85 ""
  record (ExtCall.saveModel (finalPathOf ctx.cfg) ctx.cfg.SAFE_SERIALIZATION)
  libCall ctx.env.modelSave
  record (ExtCall.saveTokenizer (finalPathOf ctx.cfg))
  libCall ctx.env.tokenizerSave
  (if imageProcessor then do
      record (ExtCall.saveImageProcessor (finalPathOf ctx.cfg))
      libCall ctx.env.imageProcSave
   else Pure.pure ())
  send_log ctx ("✅ Модель сохранена: " ++ finalPathOf ctx.cfg)
  send_status ctx "Завершено успешно"
  send_progress ctx 100 ""

/-- The body of the worker's outer `try:` (gui.py lines 49-146). -/
def workerBody (ctx : RunCtx) : WM Unit := do
  record (ExtCall.mkdirOutDir ctx.cfg.OUTPUT_PATH)
  libCall ctx.env.mkdirOut
  send_log ctx ("▶️ Начало конвертации: " ++ ctx.cfg.TARGET_MODEL_URL)
  send_status ctx "Инициализация"
  send_progress ctx 0 ""
  deviceStep ctx
  send_status ctx "Загрузка модели"
  send_progress ctx 15 ""
  loadModelStep ctx (quantArgOf ctx.env ctx.cfg) (workerDeviceMap ctx.cfg)
  send_status ctx "Загрузка токенизатора"
  send_progress ctx 40 ""
  record (ExtCall.loadTokenizer ctx.cfg.TARGET_MODEL_URL true)
  libCall ctx.env.tokenizerLoad
  let imageProcessor ← imageProcStep ctx
  saveStep ctx imageProcessor

/-- The log line of the worker's `except KeyboardInterrupt:` handler
(gui.py line 149). -/
def cancelledLogText : String := "⏹️ Операция прервана пользователем"

/-- The log line of the worker's `except Exception:` handler (gui.py
line 151): the error text followed by the traceback. -/
def errLogText (env : Env) (m : String) : String :=
  "❌ Ошибка: " ++ m ++ "\n" ++ env.tracebackText

def initWState : WState := { checks := 0, trace := [], calls := [] }

/-- The whole of `download_worker` (gui.py lines 21-154): the try body, the
two except handlers (each of which calls `send_log`, which itself re-raises
`KeyboardInterrupt` when the stop flag is set), and the `finally:` that
unconditionally sends `('done', None)`.  The first component is the
exception, if any, still propagating after the `finally`.

`handlerStep` is the pair of `except` handlers applied to the try body's
result: each handler calls `send_log`, which itself re-raises
`KeyboardInterrupt` when the stop flag is set. -/
def handlerStep (ctx : RunCtx) (r : Except Exc Unit × WState) : Except Exc Unit × WState :=
  match r.1 with
  | Except.ok _ => (Except.ok (), r.2)
  | Except.error Exc.kbint => send_log ctx cancelledLogText r.2
  | Except.error (Exc.exc m) => send_log ctx (errLogText ctx.env m) r.2

def download_worker (ctx : RunCtx) : Except Exc Unit × WState :=
  ((handlerStep ctx (workerBody ctx initWState)).1,
    { (handlerStep ctx (workerBody ctx initWState)).2 with
        trace := (handlerStep ctx (workerBody ctx initWState)).2.trace ++ [Msg.done] })

/-- The full sequence of messages a worker run puts on the pipe. -/
def workerTrace (ctx : RunCtx) : List Msg := (download_worker ctx).2.trace

/-- The full sequence of external calls a worker run makes. -/
def workerCalls (ctx : RunCtx) : List ExtCall := (download_worker ctx).2.calls

/-! ## The GUI side -/

/-- One entry of the static model catalog (gui.py lines 197-283). -/
structure ModelInfo where
  url : String
  type : String
  params : String
  desc : String
deriving DecidableEq

/-- The static model catalog `self.model_groups`, verbatim. -/
def model_groups : List (String × List (String × ModelInfo)) :=
  [ ("🖼️ Vision-Language модели",
      [ ("NuMarkdown-8B-Thinking",
          { url := "numind/NuMarkdown-8B-Thinking", type := "vision", params := "8B",
            desc := "OCR-модель с reasoning токенами для конвертации документов" })
      , ("Qwen2.5-VL-7B-Instruct",
          { url := "Qwen/Qwen2.5-VL-7B-Instruct", type := "vision", params := "7B",
            desc := "Многомодальная модель от Alibaba" })
      , ("MiniCPM-V-4_5",
          { url := "openbmb/MiniCPM-V-4_5", type := "vision", params := "8B",
            desc := "Высокопроизводительная VL-модель" })
      , ("GLM-4V-9B",
          { url := "THUDM/glm-4v-9b", type := "vision", params := "9B",
            desc := "Визуально-языковая модель THUDM" })
      , ("InternVL2-8B",
          { url := "OpenGVLab/InternVL2-8B", type := "vision", params := "8B",
            desc := "Продвинутая VL-модель OpenGVLab" }) ])
  , ("🌐 Модели перевода",
      [ ("Hunyuan-MT-7B",
          { url := "tencent/Hunyuan-MT-7B", type := "text", params := "7B",
            desc := "Переводчик Tencent на 33 языка" })
      , ("Hunyuan-MT-Chimera-7B",
          { url := "tencent/Hunyuan-MT-Chimera-7B", type := "text", params := "7B",
            desc := "Ансамблевая модель перевода" })
      , ("NLLB-200-Distilled-600M",
          { url := "facebook/nllb-200-distilled-600M", type := "text", params := "600M",
            desc := "Многоязычный переводчик Meta" })
      , ("M2M100-12B",
          { url := "facebook/m2m100_12B", type := "text", params := "12B",
            desc := "Переводчик на 100+ языков" }) ])
  , ("🤖 LLM модели",
      [ ("Qwen2.5-7B-Instruct",
          { url := "Qwen/Qwen2.5-7B-Instruct", type := "text", params := "7B",
            desc := "Инструкционная модель Qwen" })
      , ("Qwen2.5-14B-Instruct",
          { url := "Qwen/Qwen2.5-14B-Instruct", type := "text", params := "14B",
            desc := "Qwen 14B для сложных задач" })
      , ("Qwen2.5-32B-Instruct",
          { url := "Qwen/Qwen2.5-32B-Instruct", type := "text", params := "32B",
            desc := "Топовая Qwen для потребительских GPU" })
      , ("Mistral-7B-Instruct-v0.3",
          { url := "mistralai/Mistral-7B-Instruct-v0.3", type := "text", params := "7B",
            desc := "Популярная модель Mistral AI" })
      , ("Llama-3.1-8B-Instruct",
          { url := "meta-llama/Llama-3.1-8B-Instruct", type := "text", params := "8B",
            desc := "Инструкционная модель Meta" }) ])
  , ("⚙️ Пользовательская",
      [ ("Своя модель",
          { url := "", type := "vision", params := "?",
            desc := "Введите URL модели вручную" }) ]) ]

/-- `populate_model_cb` (gui.py lines 455-463): the combobox `values` list,
a group-header line per group followed by its model names indented by two
spaces. -/
def populate_values : List String :=
  (model_groups.map
    (fun g => ("--- " ++ g.1 ++ " ---") :: g.2.map (fun m => "  " ++ m.1))).flatten

/-- First catalog entry with the given (stripped) display name, searching
the groups in order — the dictionary iteration of `get_model_info`. -/
def lookupModel (name : String) : Option ModelInfo :=
  ((model_groups.map Prod.snd).flatten).lookup name

/-- `ConverterGUI.get_model_info` (gui.py lines 472-482). -/
def get_model_info (modelVar : String) : Option ModelInfo :=
  let selected := pyStrip modelVar
  if selected == "" then none
  else if pyStartsWith selected "---" then none
  else lookupModel selected

/-- The tkinter state the claims are about: the bound variables of the
widgets, the button/progress/status state, the dialogs shown and the
diagnostic stream (`print` before stdout is redirected), plus whether a
worker process was spawned and with which configuration. -/
structure GuiState where
  modelVar : String
  urlVar : String
  urlEntryReadonly : Bool
  modelInfoText : String
  ctxVar : Nat
  quantVar : String
  deviceVar : String
  outVar : String
  safeSerVar : Bool
  progressValue : Nat
  statusText : String
  statusColor : String
  startBtnEnabled : Bool
  stopBtnEnabled : Bool
  logLines : List String
  errorDialog : Option String
  infoDialog : Option String
  diagnostics : List String
  procRunning : Bool
  workerCfg : Option Cfg
deriving DecidableEq

/-- `ConverterGUI.on_model_change` (gui.py lines 484-498). -/
def on_model_change (g : GuiState) : GuiState :=
  match get_model_info g.modelVar with
  | none => g
  | some info =>
      { g with
        urlVar := info.url
        urlEntryReadonly := info.url ≠ ""
        modelInfoText :=
          "📏 " ++ info.params ++ " параметров | 🏷️ " ++ info.type ++ " | 📝 " ++ info.desc }

/-- The GUI state right after `build_ui` ran (`build_main_tab` and
`build_settings_tab` defaults, then `_set_default_model` selecting
`values[1]` and firing `on_model_change`). -/
def initialGuiState : GuiState :=
  on_model_change
    { modelVar := populate_values.getD 1 ""
      urlVar := ""
      urlEntryReadonly := false
      modelInfoText := ""
      ctxVar := 4096
      quantVar := "nf4 (bnb4)"
      deviceVar := "gpu"
      outVar := "./output"
      safeSerVar := true
      progressValue := 0
      statusText := "Готово к работе"
      statusColor := "#28a745"
      startBtnEnabled := true
      stopBtnEnabled := false
      logLines := []
      errorDialog := none
      infoDialog := none
      diagnostics := []
      procRunning := false
      workerCfg := none }

/-- `ConverterGUI.start` (gui.py lines 533-565). -/
def ConverterGUI.start (g : GuiState) : GuiState :=
  let url := pyStrip g.urlVar
  if url == "" then
    { g with errorDialog := some "Пожалуйста, укажите URL модели" }
  else
    let info := get_model_info g.modelVar
    let device_setting := g.deviceVar
    let force_cpu := device_setting == "cpu"
    let device_map :=
      if device_setting == "cpu" || device_setting == "cuda" then device_setting
      else "auto"
    let config : Cfg :=
      { TARGET_MODEL_URL := url
        OUTPUT_PATH := g.outVar
        MODEL_TYPE := (info.map ModelInfo.type).getD "vision"
        SAFE_SERIALIZATION := g.safeSerVar
        MAX_SEQ_LENGTH := g.ctxVar
        FORCE_CPU := force_cpu
        DEVICE := device_map }
    { g with
      startBtnEnabled := false
      stopBtnEnabled := true
      progressValue := 0
      statusText := "Запуск конвертации..."
      statusColor := "#fd7e14"
      procRunning := true
      workerCfg := some config }

/-- `ConverterGUI._reset_interface` (gui.py lines 576-579). -/
def ConverterGUI.resetInterface (g : GuiState) : GuiState :=
  { g with startBtnEnabled := true, stopBtnEnabled := false }

/-- One iteration of the message-draining loop in `ConverterGUI.check_pipe`
(gui.py lines 584-602), applied to one received message.  (The `[timestamp]`
prepended to log lines is runtime wall-clock text; the log line itself is
recorded.) -/
def processMessage (g : GuiState) (m : Msg) : GuiState :=
  match m with
  | Msg.progress pct stage =>
      let g1 := { g with progressValue := pct }
      if stage ≠ "" then
        { g1 with statusText := "Выполняется: " ++ stage, statusColor := "#fd7e14" }
      else g1
  | Msg.log s => { g with logLines := g.logLines ++ [s] }
  | Msg.status s => { g with statusText := s, statusColor := "#fd7e14" }
  | Msg.done =>
      { ConverterGUI.resetInterface g with
        statusText := "✅ Конвертация завершена успешно!"
        statusColor := "#28a745"
        infoDialog := some "Модель успешно сконвертирована в bnb4 формат!" }

/-- `ConverterGUI.check_pipe` draining a batch of pending messages in
arrival order. -/
def check_pipe (g : GuiState) (msgs : List Msg) : GuiState :=
  msgs.foldl processMessage g

/-- The on-disk `gui_settings.json` record: each field may be absent. -/
structure StoredSettings where
  model : Option String
  output_path : Option String
  context_length : Option Nat
  device : Option String
  safe_serialization : Option Bool
deriving DecidableEq

/-- What `load_settings` finds on disk: no file, a file `json.load` rejects,
or a readable record. -/
inductive SettingsFile where
  | absent : SettingsFile
  | malformed : String → SettingsFile
  | good : StoredSettings → SettingsFile
deriving DecidableEq

/-- `ConverterGUI.save_settings` (gui.py lines 627-641): the record written
to `gui_settings.json`. -/
def save_settings (g : GuiState) : StoredSettings :=
  { model := some g.modelVar
    output_path := some g.outVar
    context_length := some g.ctxVar
    device := some g.deviceVar
    safe_serialization := some g.safeSerVar }

/-- `ConverterGUI.load_settings` (gui.py lines 608-625): a missing file is
ignored; a malformed one is printed to the diagnostic stream and otherwise
ignored; a readable record restores the model (only when its value is in
the combobox list, firing `on_model_change`), then output path and context
length (defaulting to the current values) and device / safe-serialization
(defaulting to "gpu" / true). -/
def load_settings (file : SettingsFile) (g : GuiState) : GuiState :=
  match file with
  | SettingsFile.absent => g
  | SettingsFile.malformed e =>
      { g with diagnostics := g.diagnostics ++ ["Ошибка загрузки настроек: " ++ e] }
  | SettingsFile.good st =>
      let g1 :=
        match st.model with
        | some m =>
            if m ∈ populate_values then on_model_change { g with modelVar := m } else g
        | none => g
      { g1 with
        outVar := st.output_path.getD g1.outVar
        ctxVar := st.context_length.getD g1.ctxVar
        deviceVar := st.device.getD "gpu"
        safeSerVar := st.safe_serialization.getD true }

/-- The five persisted configuration values of a session. -/
def sessionFiveFields (g : GuiState) : String × String × Nat × String × Bool :=
  (g.modelVar, g.outVar, g.ctxVar, g.deviceVar, g.safeSerVar)

/-! ## Effect invariants of the worker monad

`TraceSat P m`: every message `m` appends to the pipe trace satisfies `P`
(and the trace only grows).  `CallsSat` is the same for external calls.
`KbFlag t m`: whenever `m` ends in `KeyboardInterrupt`, the stop flag is
set at the final observation count — the worker only raises
`KeyboardInterrupt` from the flag guard, and the flag stays set. -/

def TraceSat (P : Msg → Prop) {α : Type} (m : WM α) : Prop :=
  ∀ s : WState, ∃ Δ : List Msg, (m s).2.trace = s.trace ++ Δ ∧ ∀ x ∈ Δ, P x

def CallsSat (P : ExtCall → Prop) {α : Type} (m : WM α) : Prop :=
  ∀ s : WState, ∃ Δ : List ExtCall, (m s).2.calls = s.calls ++ Δ ∧ ∀ x ∈ Δ, P x

def KbFlag (t : Option Nat) {α : Type} (m : WM α) : Prop :=
  ∀ s : WState, (m s).1 = Except.error Exc.kbint → isSetAt t (m s).2.checks = true

theorem isSetAt_mono {t : Option Nat} {m n : Nat} (hmn : m ≤ n)
    (h : isSetAt t m = true) : isSetAt t n = true := by
  cases t with
  | none => simp [isSetAt] at h
  | some k =>
      simp only [isSetAt, decide_eq_true_eq] at h ⊢
      exact h.trans hmn

theorem traceSat_pure {P : Msg → Prop} {α : Type} (a : α) :
    TraceSat P (Pure.pure a : WM α) :=
  fun s => ⟨[], by simp [WM.pure_def, WM.pure], by simp⟩

theorem traceSat_throwE {P : Msg → Prop} {α : Type} (e : Exc) :
    TraceSat P (WM.throwE e : WM α) :=
  fun s => ⟨[], by simp [WM.throwE], by simp⟩

theorem traceSat_emit {P : Msg → Prop} {m : Msg} (h : P m) : TraceSat P (emit m) :=
  fun s => ⟨[m], by simp [emit], by simpa⟩

theorem traceSat_record {P : Msg → Prop} (c : ExtCall) : TraceSat P (record c) :=
  fun s => ⟨[], by simp [record], by simp⟩

theorem traceSat_checkStop {P : Msg → Prop} (ctx : RunCtx) :
    TraceSat P (checkStop ctx) := by
  intro s
  refine ⟨[], ?_, by simp⟩
  unfold checkStop
  split <;> simp

theorem traceSat_libCall {P : Msg → Prop} (o : Outcome) : TraceSat P (libCall o) := by
  cases o with
  | ok => exact traceSat_pure ()
  | err m => exact traceSat_throwE (Exc.exc m)

theorem traceSat_bind {P : Msg → Prop} {α β : Type} {m : WM α} {f : α → WM β}
    (hm : TraceSat P m) (hf : ∀ a, TraceSat P (f a)) : TraceSat P (m >>= f) := by
  intro s
  obtain ⟨Δ1, h1, hp1⟩ := hm s
  rw [WM.bind_def]
  unfold WM.bind
  rcases hms : m s with ⟨r1, s1⟩
  rw [hms] at h1
  simp only at h1
  cases r1 with
  | ok a =>
      obtain ⟨Δ2, h2, hp2⟩ := hf a s1
      refine ⟨Δ1 ++ Δ2, ?_, ?_⟩
      · simp only [h2, h1, List.append_assoc]
      · intro x hx
        rcases List.mem_append.mp hx with hx | hx
        exacts [hp1 x hx, hp2 x hx]
  | error e => exact ⟨Δ1, by simpa using h1, hp1⟩

theorem traceSat_tryCatch {P : Msg → Prop} {α : Type} {m : WM α} {h : Exc → WM α}
    (hm : TraceSat P m) (hh : ∀ e, TraceSat P (h e)) : TraceSat P (WM.tryCatchE m h) := by
  intro s
  obtain ⟨Δ1, h1, hp1⟩ := hm s
  unfold WM.tryCatchE
  rcases hms : m s with ⟨r1, s1⟩
  rw [hms] at h1
  simp only at h1
  cases r1 with
  | ok a => exact ⟨Δ1, by simpa using h1, hp1⟩
  | error e =>
      obtain ⟨Δ2, h2, hp2⟩ := hh e s1
      refine ⟨Δ1 ++ Δ2, ?_, ?_⟩
      · simp only [h2, h1, List.append_assoc]
      · intro x hx
        rcases List.mem_append.mp hx with hx | hx
        exacts [hp1 x hx, hp2 x hx]

theorem traceSat_ite {P : Msg → Prop} {α : Type} {c : Prop} [Decidable c]
    {m₁ m₂ : WM α} (h1 : TraceSat P m₁) (h2 : TraceSat P m₂) :
    TraceSat P (if c then m₁ else m₂) := by
  split <;> assumption

theorem callsSat_pure {P : ExtCall → Prop} {α : Type} (a : α) :
    CallsSat P (Pure.pure a : WM α) :=
  fun s => ⟨[], by simp [WM.pure_def, WM.pure], by simp⟩

theorem callsSat_throwE {P : ExtCall → Prop} {α : Type} (e : Exc) :
    CallsSat P (WM.throwE e : WM α) :=
  fun s => ⟨[], by simp [WM.throwE], by simp⟩

theorem callsSat_emit {P : ExtCall → Prop} (m : Msg) : CallsSat P (emit m) :=
  fun s => ⟨[], by simp [emit], by simp⟩

theorem callsSat_record {P : ExtCall → Prop} {c : ExtCall} (h : P c) :
    CallsSat P (record c) :=
  fun s => ⟨[c], by simp [record], by simpa⟩

theorem callsSat_checkStop {P : ExtCall → Prop} (ctx : RunCtx) :
    CallsSat P (checkStop ctx) := by
  intro s
  refine ⟨[], ?_, by simp⟩
  unfold checkStop
  split <;> simp

theorem callsSat_libCall {P : ExtCall → Prop} (o : Outcome) : CallsSat P (libCall o) := by
  cases o with
  | ok => exact callsSat_pure ()
  | err m => exact callsSat_throwE (Exc.exc m)

theorem callsSat_bind {P : ExtCall → Prop} {α β : Type} {m : WM α} {f : α → WM β}
    (hm : CallsSat P m) (hf : ∀ a, CallsSat P (f a)) : CallsSat P (m >>= f) := by
  intro s
  obtain ⟨Δ1, h1, hp1⟩ := hm s
  rw [WM.bind_def]
  unfold WM.bind
  rcases hms : m s with ⟨r1, s1⟩
  rw [hms] at h1
  simp only at h1
  cases r1 with
  | ok a =>
      obtain ⟨Δ2, h2, hp2⟩ := hf a s1
      refine ⟨Δ1 ++ Δ2, ?_, ?_⟩
      · simp only [h2, h1, List.append_assoc]
      · intro x hx
        rcases List.mem_append.mp hx with hx | hx
        exacts [hp1 x hx, hp2 x hx]
  | error e => exact ⟨Δ1, by simpa using h1, hp1⟩

theorem callsSat_tryCatch {P : ExtCall → Prop} {α : Type} {m : WM α} {h : Exc → WM α}
    (hm : CallsSat P m) (hh : ∀ e, CallsSat P (h e)) : CallsSat P (WM.tryCatchE m h) := by
  intro s
  obtain ⟨Δ1, h1, hp1⟩ := hm s
  unfold WM.tryCatchE
  rcases hms : m s with ⟨r1, s1⟩
  rw [hms] at h1
  simp only at h1
  cases r1 with
  | ok a => exact ⟨Δ1, by simpa using h1, hp1⟩
  | error e =>
      obtain ⟨Δ2, h2, hp2⟩ := hh e s1
      refine ⟨Δ1 ++ Δ2, ?_, ?_⟩
      · simp only [h2, h1, List.append_assoc]
      · intro x hx
        rcases List.mem_append.mp hx with hx | hx
        exacts [hp1 x hx, hp2 x hx]

theorem callsSat_ite {P : ExtCall → Prop} {α : Type} {c : Prop} [Decidable c]
    {m₁ m₂ : WM α} (h1 : CallsSat P m₁) (h2 : CallsSat P m₂) :
    CallsSat P (if c then m₁ else m₂) := by
  split <;> assumption

theorem kbFlag_pure {t : Option Nat} {α : Type} (a : α) :
    KbFlag t (Pure.pure a : WM α) := by
  intro s h
  simp [WM.pure_def, WM.pure] at h

theorem kbFlag_emit {t : Option Nat} (m : Msg) : KbFlag t (emit m) := by
  intro s h
  simp [emit] at h

theorem kbFlag_record {t : Option Nat} (c : ExtCall) : KbFlag t (record c) := by
  intro s h
  simp [record] at h

theorem kbFlag_libCall {t : Option Nat} (o : Outcome) : KbFlag t (libCall o) := by
  intro s h
  cases o <;> simp [libCall, WM.pure_def, WM.pure, WM.throwE] at h

theorem kbFlag_checkStop (ctx : RunCtx) : KbFlag ctx.cancelThreshold (checkStop ctx) := by
  intro s h
  unfold checkStop at h ⊢
  by_cases hs : isSetAt ctx.cancelThreshold s.checks
  · simp only [hs, if_true]
    exact isSetAt_mono (Nat.le_succ _) hs
  · simp [hs] at h

theorem kbFlag_bind {t : Option Nat} {α β : Type} {m : WM α} {f : α → WM β}
    (hm : KbFlag t m) (hf : ∀ a, KbFlag t (f a)) : KbFlag t (m >>= f) := by
  intro s
  rw [WM.bind_def]
  unfold WM.bind
  rcases hms : m s with ⟨r1, s1⟩
  cases r1 with
  | ok a => exact hf a s1
  | error e =>
      intro h
      simp only [Except.error.injEq] at h
      subst h
      have hh := hm s
      rw [hms] at hh
      simpa using hh rfl

theorem kbFlag_tryCatch {t : Option Nat} {α : Type} {m : WM α} {h : Exc → WM α}
    (hh : ∀ e, KbFlag t (h e)) : KbFlag t (WM.tryCatchE m h) := by
  intro s
  unfold WM.tryCatchE
  rcases hms : m s with ⟨r1, s1⟩
  cases r1 with
  | ok a => intro hk; simp at hk
  | error e => exact hh e s1

theorem kbFlag_ite {t : Option Nat} {α : Type} {c : Prop} [Decidable c]
    {m₁ m₂ : WM α} (h1 : KbFlag t m₁) (h2 : KbFlag t m₂) :
    KbFlag t (if c then m₁ else m₂) := by
  split <;> assumption

theorem kbFlag_send_log (ctx : RunCtx) (msg : String) :
    KbFlag ctx.cancelThreshold (send_log ctx msg) :=
  kbFlag_bind (kbFlag_checkStop ctx) (fun _ => kbFlag_emit _)

theorem kbFlag_send_status (ctx : RunCtx) (st : String) :
    KbFlag ctx.cancelThreshold (send_status ctx st) :=
  kbFlag_bind (kbFlag_checkStop ctx) (fun _ => kbFlag_emit _)

theorem kbFlag_send_progress (ctx : RunCtx) (pct : Nat) (stage : String) :
    KbFlag ctx.cancelThreshold (send_progress ctx pct stage) :=
  kbFlag_bind (kbFlag_checkStop ctx) (fun _ => kbFlag_emit _)

theorem record_apply (c : ExtCall) (s : WState) :
    record c s = (Except.ok (), { s with calls := s.calls ++ [c] }) := rfl

theorem emit_apply (m : Msg) (s : WState) :
    emit m s = (Except.ok (), { s with trace := s.trace ++ [m] }) := rfl

theorem pure_apply {α : Type} (a : α) (s : WState) :
    (Pure.pure a : WM α) s = (Except.ok a, s) := rfl

theorem bind_apply {α β : Type} (m : WM α) (f : α → WM β) (s : WState) :
    (m >>= f) s =
      match m s with
      | (Except.ok a, s1) => f a s1
      | (Except.error e, s1) => (Except.error e, s1) := rfl

theorem tryCatchE_apply {α : Type} (m : WM α) (h : Exc → WM α) (s : WState) :
    WM.tryCatchE m h s =
      match m s with
      | (Except.ok a, s1) => (Except.ok a, s1)
      | (Except.error e, s1) => h e s1 := rfl

theorem libCall_ok_apply (s : WState) : libCall Outcome.ok s = (Except.ok (), s) := rfl

theorem libCall_err_apply (m : String) (s : WState) :
    libCall (Outcome.err m) s = (Except.error (Exc.exc m), s) := rfl

theorem checkStop_flagged (ctx : RunCtx) (s : WState)
    (h : isSetAt ctx.cancelThreshold s.checks = true) :
    checkStop ctx s = (Except.error Exc.kbint, { s with checks := s.checks + 1 }) := by
  unfold checkStop
  rw [h]
  simp

theorem checkStop_unflagged (ctx : RunCtx) (s : WState)
    (h : isSetAt ctx.cancelThreshold s.checks = false) :
    checkStop ctx s = (Except.ok (), { s with checks := s.checks + 1 }) := by
  unfold checkStop
  rw [h]
  simp

theorem send_log_flagged (ctx : RunCtx) (msg : String) (s : WState)
    (h : isSetAt ctx.cancelThreshold s.checks = true) :
    send_log ctx msg s = (Except.error Exc.kbint, { s with checks := s.checks + 1 }) := by
  unfold send_log
  rw [bind_apply, checkStop_flagged ctx s h]

theorem send_log_unflagged (ctx : RunCtx) (msg : String) (s : WState)
    (h : isSetAt ctx.cancelThreshold s.checks = false) :
    send_log ctx msg s =
      (Except.ok (),
        { s with checks := s.checks + 1, trace := s.trace ++ [Msg.log msg] }) := by
  unfold send_log
  rw [bind_apply, checkStop_unflagged ctx s h]
  rfl

theorem send_status_unflagged (ctx : RunCtx) (st : String) (s : WState)
    (h : isSetAt ctx.cancelThreshold s.checks = false) :
    send_status ctx st s =
      (Except.ok (),
        { s with checks := s.checks + 1, trace := s.trace ++ [Msg.status st] }) := by
  unfold send_status
  rw [bind_apply, checkStop_unflagged ctx s h]
  rfl

theorem send_progress_unflagged (ctx : RunCtx) (pct : Nat) (stage : String) (s : WState)
    (h : isSetAt ctx.cancelThreshold s.checks = false) :
    send_progress ctx pct stage s =
      (Except.ok (),
        { s with checks := s.checks + 1, trace := s.trace ++ [Msg.progress pct stage] }) := by
  unfold send_progress
  rw [bind_apply, checkStop_unflagged ctx s h]
  rfl

/-- Closed form of `loadModelStep`: its result and the loader calls it
makes (it touches neither the trace nor the check counter). -/
def loadModelResult (ctx : RunCtx) (q : Option BnbConfig) (dm : String) :
    Except Exc Unit × List ExtCall :=
  if ctx.cfg.MODEL_TYPE == "vision" then
    match ctx.env.visionLoad with
    | Outcome.ok =>
        (Except.ok (), [ExtCall.loadVisionModel ctx.cfg.TARGET_MODEL_URL q dm true])
    | Outcome.err _ =>
        match ctx.env.causalLoad with
        | Outcome.ok =>
            (Except.ok (),
              [ExtCall.loadVisionModel ctx.cfg.TARGET_MODEL_URL q dm true,
               ExtCall.loadCausalModel ctx.cfg.TARGET_MODEL_URL q dm true])
        | Outcome.err m =>
            (Except.error (Exc.exc m),
              [ExtCall.loadVisionModel ctx.cfg.TARGET_MODEL_URL q dm true,
               ExtCall.loadCausalModel ctx.cfg.TARGET_MODEL_URL q dm true])
  else
    match ctx.env.causalLoad with
    | Outcome.ok =>
        (Except.ok (), [ExtCall.loadCausalModel ctx.cfg.TARGET_MODEL_URL q dm true])
    | Outcome.err m =>
        (Except.error (Exc.exc m),
          [ExtCall.loadCausalModel ctx.cfg.TARGET_MODEL_URL q dm true])

theorem loadModelStep_apply (ctx : RunCtx) (q : Option BnbConfig) (dm : String)
    (s : WState) :
    loadModelStep ctx q dm s =
      ((loadModelResult ctx q dm).1,
        { s with calls := s.calls ++ (loadModelResult ctx q dm).2 }) := by
  unfold loadModelStep loadModelResult
  split
  · cases ctx.env.visionLoad <;> cases ctx.env.causalLoad <;>
      simp [tryCatchE_apply, bind_apply, record_apply, libCall_ok_apply,
        libCall_err_apply]
  · cases ctx.env.causalLoad <;>
      simp [bind_apply, record_apply, libCall_ok_apply, libCall_err_apply]

/-- The model-loading step never raises `KeyboardInterrupt`: its only
effects are `record` and `libCall`, and `libCall` raises plain exceptions. -/
theorem kbFlag_loadModelStep (t : Option Nat) (ctx : RunCtx)
    (q : Option BnbConfig) (dm : String) : KbFlag t (loadModelStep ctx q dm) := by
  intro s h
  exfalso
  rw [loadModelStep_apply] at h
  simp only at h
  revert h
  unfold loadModelResult
  split
  · cases ctx.env.visionLoad <;> cases ctx.env.causalLoad <;> simp
  · cases ctx.env.causalLoad <;> simp

/-! ## The worker's trace and flag invariants, step by step -/

/-- Predicate for `TraceSat`: the message is not the completion marker. -/
def NotDone (x : Msg) : Prop := x ≠ Msg.done

theorem traceSat_send_log {P : Msg → Prop} (ctx : RunCtx) (msg : String)
    (h : P (Msg.log msg)) : TraceSat P (send_log ctx msg) :=
  traceSat_bind (traceSat_checkStop ctx) (fun _ => traceSat_emit h)

theorem traceSat_send_status {P : Msg → Prop} (ctx : RunCtx) (st : String)
    (h : P (Msg.status st)) : TraceSat P (send_status ctx st) :=
  traceSat_bind (traceSat_checkStop ctx) (fun _ => traceSat_emit h)

theorem traceSat_send_progress {P : Msg → Prop} (ctx : RunCtx) (pct : Nat)
    (stage : String) (h : P (Msg.progress pct stage)) :
    TraceSat P (send_progress ctx pct stage) :=
  traceSat_bind (traceSat_checkStop ctx) (fun _ => traceSat_emit h)

theorem traceSat_loadModelStep {P : Msg → Prop} (ctx : RunCtx)
    (q : Option BnbConfig) (dm : String) : TraceSat P (loadModelStep ctx q dm) := by
  intro s
  refine ⟨[], ?_, by simp⟩
  rw [loadModelStep_apply]
  simp

theorem traceSat_notDone_deviceStep (ctx : RunCtx) :
    TraceSat NotDone (deviceStep ctx) := by
  unfold deviceStep
  refine traceSat_ite ?_ (traceSat_ite ?_ (traceSat_ite ?_ ?_)) <;>
    exact traceSat_send_log _ _ (by simp [NotDone])

theorem traceSat_notDone_imageProcStep (ctx : RunCtx) :
    TraceSat NotDone (imageProcStep ctx) := by
  unfold imageProcStep
  refine traceSat_ite ?_ (traceSat_pure _)
  refine traceSat_tryCatch ?_ fun e => ?_
  · refine traceSat_bind (traceSat_send_status _ _ (by simp [NotDone])) fun _ => ?_
    refine traceSat_bind (traceSat_send_progress _ _ _ (by simp [NotDone])) fun _ => ?_
    refine traceSat_bind (traceSat_record _) fun _ => ?_
    exact traceSat_bind (traceSat_libCall _) fun _ => traceSat_pure _
  · exact traceSat_bind (traceSat_send_log _ _ (by simp [NotDone])) fun _ =>
      traceSat_pure _

theorem traceSat_notDone_saveStep (ctx : RunCtx) (ip : Bool) :
    TraceSat NotDone (saveStep ctx ip) := by
  unfold saveStep
  refine traceSat_bind (traceSat_send_status _ _ (by simp [NotDone])) fun _ => ?_
  refine traceSat_bind (traceSat_send_progress _ _ _ (by simp [NotDone])) fun _ => ?_
  refine traceSat_bind (traceSat_record _) fun _ => ?_
  refine traceSat_bind (traceSat_libCall _) fun _ => ?_
  refine traceSat_bind (traceSat_send_status _ _ (by simp [NotDone])) fun _ => ?_
  refine traceSat_bind (traceSat_send_progress _ _ _ (by simp [NotDone])) fun _ => ?_
  refine traceSat_bind (traceSat_record _) fun _ => ?_
  refine traceSat_bind (traceSat_libCall _) fun _ => ?_
  refine traceSat_bind (traceSat_record _) fun _ => ?_
  refine traceSat_bind (traceSat_libCall _) fun _ => ?_
  refine traceSat_bind ?_ fun _ => ?_
  · refine traceSat_ite ?_ (traceSat_pure _)
    exact traceSat_bind (traceSat_record _) fun _ => traceSat_libCall _
  · refine traceSat_bind (traceSat_send_log _ _ (by simp [NotDone])) fun _ => ?_
    refine traceSat_bind (traceSat_send_status _ _ (by simp [NotDone])) fun _ => ?_
    exact traceSat_send_progress _ _ _ (by simp [NotDone])

/-- The try body never sends a completion message: every message it puts on
the pipe goes through `send_log` / `send_progress` / `send_status`. -/
theorem traceSat_notDone_workerBody (ctx : RunCtx) :
    TraceSat NotDone (workerBody ctx) := by
  unfold workerBody
  refine traceSat_bind (traceSat_record _) fun _ => ?_
  refine traceSat_bind (traceSat_libCall _) fun _ => ?_
  refine traceSat_bind (traceSat_send_log _ _ (by simp [NotDone])) fun _ => ?_
  refine traceSat_bind (traceSat_send_status _ _ (by simp [NotDone])) fun _ => ?_
  refine traceSat_bind (traceSat_send_progress _ _ _ (by simp [NotDone])) fun _ => ?_
  refine traceSat_bind (traceSat_notDone_deviceStep ctx) fun _ => ?_
  refine traceSat_bind (traceSat_send_status _ _ (by simp [NotDone])) fun _ => ?_
  refine traceSat_bind (traceSat_send_progress _ _ _ (by simp [NotDone])) fun _ => ?_
  refine traceSat_bind (traceSat_loadModelStep _ _ _) fun _ => ?_
  refine traceSat_bind (traceSat_send_status _ _ (by simp [NotDone])) fun _ => ?_
  refine traceSat_bind (traceSat_send_progress _ _ _ (by simp [NotDone])) fun _ => ?_
  refine traceSat_bind (traceSat_record _) fun _ => ?_
  refine traceSat_bind (traceSat_libCall _) fun _ => ?_
  exact traceSat_bind (traceSat_notDone_imageProcStep ctx) fun ip =>
    traceSat_notDone_saveStep ctx ip

theorem kbFlag_deviceStep (ctx : RunCtx) :
    KbFlag ctx.cancelThreshold (deviceStep ctx) := by
  unfold deviceStep
  refine kbFlag_ite ?_ (kbFlag_ite ?_ (kbFlag_ite ?_ ?_)) <;> exact kbFlag_send_log _ _

theorem kbFlag_imageProcStep (ctx : RunCtx) :
    KbFlag ctx.cancelThreshold (imageProcStep ctx) := by
  unfold imageProcStep
  refine kbFlag_ite ?_ (kbFlag_pure _)
  refine kbFlag_tryCatch fun e => ?_
  exact kbFlag_bind (kbFlag_send_log _ _) fun _ => kbFlag_pure _

theorem kbFlag_saveStep (ctx : RunCtx) (ip : Bool) :
    KbFlag ctx.cancelThreshold (saveStep ctx ip) := by
  unfold saveStep
  refine kbFlag_bind (kbFlag_send_status _ _) fun _ => ?_
  refine kbFlag_bind (kbFlag_send_progress _ _ _) fun _ => ?_
  refine kbFlag_bind (kbFlag_record _) fun _ => ?_
  refine kbFlag_bind (kbFlag_libCall _) fun _ => ?_
  refine kbFlag_bind (kbFlag_send_status _ _) fun _ => ?_
  refine kbFlag_bind (kbFlag_send_progress _ _ _) fun _ => ?_
  refine kbFlag_bind (kbFlag_record _) fun _ => ?_
  refine kbFlag_bind (kbFlag_libCall _) fun _ => ?_
  refine kbFlag_bind (kbFlag_record _) fun _ => ?_
  refine kbFlag_bind (kbFlag_libCall _) fun _ => ?_
  refine kbFlag_bind ?_ fun _ => ?_
  · refine kbFlag_ite ?_ (kbFlag_pure _)
    exact kbFlag_bind (kbFlag_record _) fun _ => kbFlag_libCall _
  · refine kbFlag_bind (kbFlag_send_log _ _) fun _ => ?_
    refine kbFlag_bind (kbFlag_send_status _ _) fun _ => ?_
    exact kbFlag_send_progress _ _ _

/-- If the try body ends in `KeyboardInterrupt`, the stop flag is set at its
final observation count: the body only raises `KeyboardInterrupt` from the
flag guard, and the flag, once set, stays set. -/
theorem kbFlag_workerBody (ctx : RunCtx) :
    KbFlag ctx.cancelThreshold (workerBody ctx) := by
  unfold workerBody
  refine kbFlag_bind (kbFlag_record _) fun _ => ?_
  refine kbFlag_bind (kbFlag_libCall _) fun _ => ?_
  refine kbFlag_bind (kbFlag_send_log _ _) fun _ => ?_
  refine kbFlag_bind (kbFlag_send_status _ _) fun _ => ?_
  refine kbFlag_bind (kbFlag_send_progress _ _ _) fun _ => ?_
  refine kbFlag_bind (kbFlag_deviceStep ctx) fun _ => ?_
  refine kbFlag_bind (kbFlag_send_status _ _) fun _ => ?_
  refine kbFlag_bind (kbFlag_send_progress _ _ _) fun _ => ?_
  refine kbFlag_bind (kbFlag_loadModelStep _ _ _ _) fun _ => ?_
  refine kbFlag_bind (kbFlag_send_status _ _) fun _ => ?_
  refine kbFlag_bind (kbFlag_send_progress _ _ _) fun _ => ?_
  refine kbFlag_bind (kbFlag_record _) fun _ => ?_
  refine kbFlag_bind (kbFlag_libCall _) fun _ => ?_
  exact kbFlag_bind (kbFlag_imageProcStep ctx) fun ip => kbFlag_saveStep ctx ip

/-! ## Shape of a full worker run's pipe trace -/

/-- Every worker run, whatever its outcome, puts exactly one completion
message on the pipe, and as its last message: the try body and the except
handlers only send log/progress/status messages, and the `finally:` appends
`('done', None)`. -/
theorem workerTrace_shape (ctx : RunCtx) :
    ∃ t : List Msg, workerTrace ctx = t ++ [Msg.done] ∧ Msg.done ∉ t := by
  obtain ⟨Δ, hΔ, hP⟩ := traceSat_notDone_workerBody ctx initWState
  have hΔ2 : (workerBody ctx initWState).2.trace = Δ := by
    simpa [initWState] using hΔ
  unfold workerTrace download_worker handlerStep
  rcases hb : (workerBody ctx initWState).1 with e | u
  case ok =>
    refine ⟨Δ, ?_, ?_⟩
    · simp [hΔ2]
    · intro hc
      exact hP _ hc rfl
  case error =>
    cases e with
    | kbint =>
        obtain ⟨Δ2, h2, hp2⟩ :=
          traceSat_send_log (P := NotDone) ctx cancelledLogText (by simp [NotDone])
            (workerBody ctx initWState).2
        refine ⟨Δ ++ Δ2, ?_, ?_⟩
        · simp [h2, hΔ2]
        · intro hc
          rcases List.mem_append.mp hc with hc | hc
          exacts [hP _ hc rfl, hp2 _ hc rfl]
    | exc m =>
        obtain ⟨Δ2, h2, hp2⟩ :=
          traceSat_send_log (P := NotDone) ctx (errLogText ctx.env m) (by simp [NotDone])
            (workerBody ctx initWState).2
        refine ⟨Δ ++ Δ2, ?_, ?_⟩
        · simp [h2, hΔ2]
        · intro hc
          rcases List.mem_append.mp hc with hc | hc
          exacts [hP _ hc rfl, hp2 _ hc rfl]

/-- In a run that is never cancelled and whose try body dies with a plain
exception, the `except Exception:` handler's log line (error text plus
traceback) goes on the pipe, directly followed by the completion message. -/
theorem worker_error_logged (ctx : RunCtx) (m : String)
    (hc : ctx.cancelThreshold = none)
    (hb : (workerBody ctx initWState).1 = Except.error (Exc.exc m)) :
    ∃ t1, workerTrace ctx = t1 ++ [Msg.log (errLogText ctx.env m), Msg.done] := by
  unfold workerTrace download_worker handlerStep
  rw [hb]
  have hsl :=
    send_log_unflagged ctx (errLogText ctx.env m) (workerBody ctx initWState).2
      (by simp [isSetAt, hc])
  refine ⟨(workerBody ctx initWState).2.trace, ?_⟩
  simp [hsl]

/-- In a run whose try body dies with `KeyboardInterrupt` (the stop flag was
observed set), the `except KeyboardInterrupt:` handler's `send_log` call
re-raises before sending anything, so the handler contributes nothing to
the pipe: the trace is the body's messages followed directly by the
completion message — the "cancelled" log line never reaches the pipe. -/
theorem cancelled_handler_skipped (ctx : RunCtx)
    (hb : (workerBody ctx initWState).1 = Except.error Exc.kbint) :
    workerTrace ctx = (workerBody ctx initWState).2.trace ++ [Msg.done] := by
  have hflag := kbFlag_workerBody ctx initWState hb
  unfold workerTrace download_worker handlerStep
  rw [hb]
  rw [send_log_flagged ctx cancelledLogText _ hflag]

/-! ## Concrete run contexts used as witnesses -/

/-- An external world in which every call succeeds. -/
def envAllOk : Env :=
  { cudaAvailable := true, bf16Supported := true, mkdirOut := Outcome.ok,
    visionLoad := Outcome.ok, causalLoad := Outcome.ok, tokenizerLoad := Outcome.ok,
    imageProcLoad := Outcome.ok, mkdirFinal := Outcome.ok, modelSave := Outcome.ok,
    tokenizerSave := Outcome.ok, imageProcSave := Outcome.ok,
    tracebackText := "Traceback (most recent call last): ..." }

/-- A text-model job configuration as `ConverterGUI.start` would build it
for source "org/model-a", output root "./output" and device selection
mapped to "auto". -/
def cfgTextExample : Cfg :=
  { TARGET_MODEL_URL := "org/model-a", OUTPUT_PATH := "./output",
    MODEL_TYPE := "text", SAFE_SERIALIZATION := true, MAX_SEQ_LENGTH := 4096,
    FORCE_CPU := false, DEVICE := "auto" }

/-- A run cancelled at the fourth flag observation: the worker gets through
its three startup messages and is stopped at the device-selection log. -/
def ctxCancelMidRun : RunCtx :=
  { cfg := cfgTextExample, env := envAllOk, cancelThreshold := some 3 }

/-- An external world in which the generic loader raises. -/
def envCausalFails : Env := { envAllOk with causalLoad := Outcome.err "boom" }

/-- A never-cancelled run whose model load fails. -/
def ctxLoadFailure : RunCtx :=
  { cfg := cfgTextExample, env := envCausalFails, cancelThreshold := none }

/-- A never-cancelled, fully successful text-model run. -/
def ctxTextAllOk : RunCtx :=
  { cfg := cfgTextExample, env := envAllOk, cancelThreshold := none }

/-! ## The claims -/

/-- C1: For every worker run — success, plain exception, or cancellation —
the worker sends exactly one ('done', None) completion message, and as its
final message; and in a never-cancelled run whose try body raises a plain
exception, a log message carrying the error text (and traceback) is sent
directly before the completion message. -/
theorem C1_worker_always_completes :
    (∀ ctx : RunCtx, ∃ t : List Msg, workerTrace ctx = t ++ [Msg.done] ∧
        Msg.done ∉ t) ∧
    (∀ (ctx : RunCtx) (m : String), ctx.cancelThreshold = none →
        (workerBody ctx initWState).1 = Except.error (Exc.exc m) →
        ∃ t1, workerTrace ctx = t1 ++ [Msg.log (errLogText ctx.env m), Msg.done]) :=
  ⟨workerTrace_shape, worker_error_logged⟩

/-- Instance of C1 at a concrete failing load: the run with
`causalLoad = err "boom"` logs the error text and still completes. -/
theorem C1_worker_always_completes_witness :
    ∃ t1, workerTrace ctxLoadFailure =
      t1 ++ [Msg.log (errLogText ctxLoadFailure.env "boom"), Msg.done] :=
  C1_worker_always_completes.2 ctxLoadFailure "boom" rfl rfl

/-- C2 (code-bug evidence): in every run whose try body is stopped by the
cancellation flag, the `except KeyboardInterrupt:` handler re-raises from
inside `send_log` (gui.py line 35) before sending anything, so the
"cancelled" log line of gui.py line 149 never reaches the pipe: the trace is
the body's messages followed directly by `done`.  Concretely, cancelling at
the fourth checkpoint yields only the three startup messages and `done`. -/
theorem C2_cancelled_log_never_sent :
    (∀ ctx : RunCtx, (workerBody ctx initWState).1 = Except.error Exc.kbint →
        workerTrace ctx = (workerBody ctx initWState).2.trace ++ [Msg.done]) ∧
    (workerTrace ctxCancelMidRun =
        [Msg.log "▶️ Начало конвертации: org/model-a", Msg.status "Инициализация",
         Msg.progress 0 "", Msg.done] ∧
      Msg.log cancelledLogText ∉ workerTrace ctxCancelMidRun ∧
      (workerBody ctxCancelMidRun initWState).1 = Except.error Exc.kbint) :=
  ⟨cancelled_handler_skipped, by decide, by decide, rfl⟩

/-- C3: starting a job whose source URL strips to the empty string shows the
error dialog and changes nothing else: the start/stop buttons, the progress
bar, the status and the worker state are exactly as before. -/
theorem C3_empty_url_start_rejected (g : GuiState) (h : pyStrip g.urlVar = "") :
    ConverterGUI.start g =
      { g with errorDialog := some "Пожалуйста, укажите URL модели" } := by
  simp [ConverterGUI.start, h]

/-- Instance of C3 at a whitespace-only URL in the default interface. -/
theorem C3_empty_url_start_rejected_witness :
    ConverterGUI.start { initialGuiState with urlVar := "   " } =
      { { initialGuiState with urlVar := "   " } with
          errorDialog := some "Пожалуйста, укажите URL модели" } :=
  C3_empty_url_start_rejected { initialGuiState with urlVar := "   " } (by decide)

/-- The configuration `ConverterGUI.start` builds from the default interface
state (device selector at its default "gpu", default catalog model): the
DEVICE field is "auto", not "cuda". -/
def cfgFromDefaultUi : Cfg :=
  { TARGET_MODEL_URL := "numind/NuMarkdown-8B-Thinking", OUTPUT_PATH := "./output",
    MODEL_TYPE := "vision", SAFE_SERIALIZATION := true, MAX_SEQ_LENGTH := 4096,
    FORCE_CPU := false, DEVICE := "auto" }

/-- A never-cancelled all-ok run of the configuration the default interface
produces. -/
def ctxFromDefaultUi : RunCtx :=
  { cfg := cfgFromDefaultUi, env := envAllOk, cancelThreshold := none }

/-- C4 (code-bug evidence): the "gpu" device selection — the selector's
default — does not force GPU placement.  `start` maps it to "auto" (the
membership test `device_setting in ["cpu", "cuda"]` never matches "gpu"),
the worker's device branch logs "automatic selection", and the loader is
called with device_map "auto"; the worker's "cuda" branch is unreachable
from the selector's values {auto, gpu, cpu}. -/
theorem C4_gpu_selection_becomes_auto :
    initialGuiState.deviceVar = "gpu" ∧
    (ConverterGUI.start initialGuiState).workerCfg = some cfgFromDefaultUi ∧
    cfgFromDefaultUi.DEVICE = "auto" ∧
    workerDeviceMap cfgFromDefaultUi = "auto" ∧
    deviceLogText cfgFromDefaultUi = "🔄 Автоматический выбор устройства" ∧
    Msg.log "🔄 Автоматический выбор устройства" ∈ workerTrace ctxFromDefaultUi ∧
    ExtCall.loadVisionModel "numind/NuMarkdown-8B-Thinking"
        (some (mkBnbConfig envAllOk "auto")) "auto" true ∈ workerCalls ctxFromDefaultUi ∧
    (∀ dev : String, dev = "auto" ∨ dev = "gpu" ∨ dev = "cpu" →
        ¬ workerDeviceMap
            { cfgFromDefaultUi with
                DEVICE := if dev == "cpu" || dev == "cuda" then dev else "auto",
                FORCE_CPU := dev == "cpu" } = "cuda") := by
  refine ⟨rfl, by decide, rfl, rfl, rfl, by decide, by decide, ?_⟩
  intro dev h
  rcases h with rfl | rfl | rfl <;> decide

/-- Once the start/stop buttons are in the reset position, no pipe message
moves them out of it: log/progress/status messages do not touch them and a
completion message sets them to exactly that position again. -/
theorem processMessage_keeps_reset (m : Msg) (g : GuiState)
    (h : g.startBtnEnabled = true ∧ g.stopBtnEnabled = false) :
    (processMessage g m).startBtnEnabled = true ∧
      (processMessage g m).stopBtnEnabled = false := by
  cases m with
  | progress pct stage =>
      simp only [processMessage]
      split <;> exact h
  | log s => exact h
  | status s => exact h
  | done => simp [processMessage, ConverterGUI.resetInterface]

theorem check_pipe_keeps_reset (ms : List Msg) :
    ∀ g : GuiState, g.startBtnEnabled = true ∧ g.stopBtnEnabled = false →
      (check_pipe g ms).startBtnEnabled = true ∧
        (check_pipe g ms).stopBtnEnabled = false := by
  induction ms with
  | nil => exact fun g h => h
  | cons m tl ih => exact fun g h => ih (processMessage g m) (processMessage_keeps_reset m g h)

/-- Draining a batch that contains a completion message leaves the
interface reset, whatever else the batch contains. -/
theorem check_pipe_done_resets (ms : List Msg) :
    ∀ g : GuiState, Msg.done ∈ ms →
      (check_pipe g ms).startBtnEnabled = true ∧
        (check_pipe g ms).stopBtnEnabled = false := by
  induction ms with
  | nil => intro g h; cases h
  | cons m tl ih =>
      intro g h
      rcases List.mem_cons.mp h with hm | h2
      · subst hm
        exact check_pipe_keeps_reset tl _
          (by simp [processMessage, ConverterGUI.resetInterface])
      · exact ih (processMessage g m) h2

/-- C8: a 'done' message always resets the interface — start re-enabled,
stop disabled — whatever state the interface was in (success, failure and
cancellation all funnel through the same unconditional reset); and any
drained batch containing a 'done' leaves the interface reset. -/
theorem C8_done_resets_interface :
    (∀ g : GuiState,
        (processMessage g Msg.done).startBtnEnabled = true ∧
        (processMessage g Msg.done).stopBtnEnabled = false) ∧
    (∀ (g : GuiState) (ms : List Msg), Msg.done ∈ ms →
        (check_pipe g ms).startBtnEnabled = true ∧
        (check_pipe g ms).stopBtnEnabled = false) :=
  ⟨fun g => by simp [processMessage, ConverterGUI.resetInterface],
   fun g ms h => check_pipe_done_resets ms g h⟩

/-- Instance of C8: a batch carrying a failure log and then 'done', drained
in a running interface, re-enables start and disables stop. -/
theorem C8_done_resets_interface_witness :
    (check_pipe (ConverterGUI.start initialGuiState)
        [Msg.log "❌ Ошибка: boom", Msg.done]).startBtnEnabled = true ∧
    (check_pipe (ConverterGUI.start initialGuiState)
        [Msg.log "❌ Ошибка: boom", Msg.done]).stopBtnEnabled = false :=
  C8_done_resets_interface.2 (ConverterGUI.start initialGuiState)
    [Msg.log "❌ Ошибка: boom", Msg.done] (by decide)

/-- C10: every 'done' message makes the supervisor display the success
status and show the success dialog, for every interface state — the
completion message carries no outcome (it is the last message of every run,
successful, failed or cancelled alike), so a failed or cancelled run is
reported exactly like a successful one. -/
theorem C10_done_always_reported_as_success :
    (∀ g : GuiState,
        (processMessage g Msg.done).statusText = "✅ Конвертация завершена успешно!" ∧
        (processMessage g Msg.done).statusColor = "#28a745" ∧
        (processMessage g Msg.done).infoDialog =
          some "Модель успешно сконвертирована в bnb4 формат!") ∧
    (∀ ctx : RunCtx, (workerTrace ctx).getLast? = some Msg.done) := by
  constructor
  · intro g
    simp [processMessage, ConverterGUI.resetInterface]
  · intro ctx
    obtain ⟨t, ht, -⟩ := workerTrace_shape ctx
    rw [ht]
    simp

/-! ## C9: the quantization selector has no effect -/

/-- The quantization-config argument a loader call carries, if the call is a
loader call. -/
def loaderQuantArg : ExtCall → Option (Option BnbConfig)
  | ExtCall.loadVisionModel _ q _ _ => some q
  | ExtCall.loadCausalModel _ q _ _ => some q
  | _ => none

/-- A call is NF4-sound when any quantization config it carries is 4-bit,
double-quantized, nf4. -/
def NF4Call (c : ExtCall) : Prop :=
  ∀ b : BnbConfig, loaderQuantArg c = some (some b) →
    b.bnb_4bit_quant_type = "nf4" ∧ b.bnb_4bit_use_double_quant = true ∧
    b.load_in_4bit = true

theorem nf4_quantArgOf (env : Env) (cfg : Cfg) :
    ∀ b : BnbConfig, quantArgOf env cfg = some b →
      b.bnb_4bit_quant_type = "nf4" ∧ b.bnb_4bit_use_double_quant = true ∧
      b.load_in_4bit = true := by
  intro b h
  unfold quantArgOf at h
  split at h
  · simp only [Option.some.injEq] at h
    subst h
    exact ⟨rfl, rfl, rfl⟩
  · cases h

theorem nf4Call_nonLoader {c : ExtCall} (h : loaderQuantArg c = none) : NF4Call c := by
  intro b hb
  rw [h] at hb
  cases hb

theorem callsSat_send_log {P : ExtCall → Prop} (ctx : RunCtx) (msg : String) :
    CallsSat P (send_log ctx msg) :=
  callsSat_bind (callsSat_checkStop ctx) (fun _ => callsSat_emit _)

theorem callsSat_send_status {P : ExtCall → Prop} (ctx : RunCtx) (st : String) :
    CallsSat P (send_status ctx st) :=
  callsSat_bind (callsSat_checkStop ctx) (fun _ => callsSat_emit _)

theorem callsSat_send_progress {P : ExtCall → Prop} (ctx : RunCtx) (pct : Nat)
    (stage : String) : CallsSat P (send_progress ctx pct stage) :=
  callsSat_bind (callsSat_checkStop ctx) (fun _ => callsSat_emit _)

theorem callsSat_deviceStep {P : ExtCall → Prop} (ctx : RunCtx) :
    CallsSat P (deviceStep ctx) := by
  unfold deviceStep
  refine callsSat_ite ?_ (callsSat_ite ?_ (callsSat_ite ?_ ?_)) <;>
    exact callsSat_send_log _ _

theorem callsSat_loadModelStep {P : ExtCall → Prop} (ctx : RunCtx)
    (q : Option BnbConfig) (dm : String)
    (h1 : P (ExtCall.loadVisionModel ctx.cfg.TARGET_MODEL_URL q dm true))
    (h2 : P (ExtCall.loadCausalModel ctx.cfg.TARGET_MODEL_URL q dm true)) :
    CallsSat P (loadModelStep ctx q dm) := by
  intro s
  refine ⟨(loadModelResult ctx q dm).2, by rw [loadModelStep_apply], ?_⟩
  unfold loadModelResult
  split
  · cases ctx.env.visionLoad with
    | ok =>
        intro x hx
        simp only [List.mem_singleton] at hx
        subst hx
        exact h1
    | err m =>
        cases ctx.env.causalLoad <;>
        · intro x hx
          simp only [List.mem_cons, List.not_mem_nil, or_false] at hx
          rcases hx with rfl | rfl
          exacts [h1, h2]
  · cases ctx.env.causalLoad <;>
    · intro x hx
      simp only [List.mem_singleton] at hx
      subst hx
      exact h2

theorem callsSat_nf4_imageProcStep (ctx : RunCtx) :
    CallsSat NF4Call (imageProcStep ctx) := by
  unfold imageProcStep
  refine callsSat_ite ?_ (callsSat_pure _)
  refine callsSat_tryCatch ?_ fun e => ?_
  · refine callsSat_bind (callsSat_send_status _ _) fun _ => ?_
    refine callsSat_bind (callsSat_send_progress _ _ _) fun _ => ?_
    refine callsSat_bind (callsSat_record (nf4Call_nonLoader rfl)) fun _ => ?_
    exact callsSat_bind (callsSat_libCall _) fun _ => callsSat_pure _
  · exact callsSat_bind (callsSat_send_log _ _) fun _ => callsSat_pure _

theorem callsSat_nf4_saveStep (ctx : RunCtx) (ip : Bool) :
    CallsSat NF4Call (saveStep ctx ip) := by
  unfold saveStep
  refine callsSat_bind (callsSat_send_status _ _) fun _ => ?_
  refine callsSat_bind (callsSat_send_progress _ _ _) fun _ => ?_
  refine callsSat_bind (callsSat_record (nf4Call_nonLoader rfl)) fun _ => ?_
  refine callsSat_bind (callsSat_libCall _) fun _ => ?_
  refine callsSat_bind (callsSat_send_status _ _) fun _ => ?_
  refine callsSat_bind (callsSat_send_progress _ _ _) fun _ => ?_
  refine callsSat_bind (callsSat_record (nf4Call_nonLoader rfl)) fun _ => ?_
  refine callsSat_bind (callsSat_libCall _) fun _ => ?_
  refine callsSat_bind (callsSat_record (nf4Call_nonLoader rfl)) fun _ => ?_
  refine callsSat_bind (callsSat_libCall _) fun _ => ?_
  refine callsSat_bind ?_ fun _ => ?_
  · refine callsSat_ite ?_ (callsSat_pure _)
    exact callsSat_bind (callsSat_record (nf4Call_nonLoader rfl)) fun _ =>
      callsSat_libCall _
  · refine callsSat_bind (callsSat_send_log _ _) fun _ => ?_
    refine callsSat_bind (callsSat_send_status _ _) fun _ => ?_
    exact callsSat_send_progress _ _ _

/-- Every quantization config the try body hands to a loader is the nf4,
double-quantized, 4-bit one built at gui.py lines 74-82. -/
theorem callsSat_nf4_workerBody (ctx : RunCtx) :
    CallsSat NF4Call (workerBody ctx) := by
  unfold workerBody
  refine callsSat_bind (callsSat_record (nf4Call_nonLoader rfl)) fun _ => ?_
  refine callsSat_bind (callsSat_libCall _) fun _ => ?_
  refine callsSat_bind (callsSat_send_log _ _) fun _ => ?_
  refine callsSat_bind (callsSat_send_status _ _) fun _ => ?_
  refine callsSat_bind (callsSat_send_progress _ _ _) fun _ => ?_
  refine callsSat_bind (callsSat_deviceStep ctx) fun _ => ?_
  refine callsSat_bind (callsSat_send_status _ _) fun _ => ?_
  refine callsSat_bind (callsSat_send_progress _ _ _) fun _ => ?_
  refine callsSat_bind (callsSat_loadModelStep ctx _ _ ?_ ?_) fun _ => ?_
  · intro b hb
    simp only [loaderQuantArg, Option.some.injEq] at hb
    exact nf4_quantArgOf ctx.env ctx.cfg b hb
  · intro b hb
    simp only [loaderQuantArg, Option.some.injEq] at hb
    exact nf4_quantArgOf ctx.env ctx.cfg b hb
  refine callsSat_bind (callsSat_send_status _ _) fun _ => ?_
  refine callsSat_bind (callsSat_send_progress _ _ _) fun _ => ?_
  refine callsSat_bind (callsSat_record (nf4Call_nonLoader rfl)) fun _ => ?_
  refine callsSat_bind (callsSat_libCall _) fun _ => ?_
  exact callsSat_bind (callsSat_nf4_imageProcStep ctx) fun ip =>
    callsSat_nf4_saveStep ctx ip

theorem send_log_calls (ctx : RunCtx) (msg : String) (s : WState) :
    (send_log ctx msg s).2.calls = s.calls := by
  unfold send_log
  rw [bind_apply]
  by_cases h : isSetAt ctx.cancelThreshold s.checks = true
  · rw [checkStop_flagged ctx s h]
  · rw [checkStop_unflagged ctx s (by simpa using h)]
    simp [emit]

/-- The except handlers contribute no external calls: a full run's calls are
the try body's calls. -/
theorem workerCalls_eq_body (ctx : RunCtx) :
    workerCalls ctx = (workerBody ctx initWState).2.calls := by
  unfold workerCalls download_worker handlerStep
  rcases hb : (workerBody ctx initWState).1 with e | u
  case error => cases e <;> simp [send_log_calls]
  case ok => simp

/-- C9: the UI quantization selector ("nf4 (bnb4)" vs "fp4") has no effect:
two starts differing only in the selector value hand the worker identical
job configurations; the `BitsAndBytesConfig` the worker builds is always
nf4 with double quantization and 4-bit load; and every quantization config
any worker run ever hands to a loader is that nf4 config. -/
theorem C9_quant_selector_inert :
    (∀ (g : GuiState) (q1 q2 : String),
        (ConverterGUI.start { g with quantVar := q1 }).workerCfg =
          (ConverterGUI.start { g with quantVar := q2 }).workerCfg) ∧
    (∀ (env : Env) (dm : String),
        (mkBnbConfig env dm).bnb_4bit_quant_type = "nf4" ∧
        (mkBnbConfig env dm).bnb_4bit_use_double_quant = true ∧
        (mkBnbConfig env dm).load_in_4bit = true) ∧
    (∀ ctx : RunCtx, ∀ c ∈ workerCalls ctx, NF4Call c) := by
  refine ⟨?_, fun env dm => ⟨rfl, rfl, rfl⟩, ?_⟩
  · intro g q1 q2
    simp only [ConverterGUI.start]
    split <;> rfl
  · intro ctx c hc
    obtain ⟨Δ, hΔ, hP⟩ := callsSat_nf4_workerBody ctx initWState
    rw [workerCalls_eq_body, hΔ] at hc
    simp only [initWState, List.nil_append] at hc
    exact hP c hc

/-- Instance of C9: the two selector values produce the same configuration
from the default interface, and the loader call of a concrete run carries
the nf4 double-quantized config. -/
theorem C9_quant_selector_inert_witness :
    (ConverterGUI.start { initialGuiState with quantVar := "nf4 (bnb4)" }).workerCfg =
      (ConverterGUI.start { initialGuiState with quantVar := "fp4" }).workerCfg ∧
    NF4Call (ExtCall.loadCausalModel "org/model-a"
      (some (mkBnbConfig envAllOk "auto")) "auto" true) :=
  ⟨C9_quant_selector_inert.1 initialGuiState "nf4 (bnb4)" "fp4",
   C9_quant_selector_inert.2.2 ctxTextAllOk _ (by decide)⟩

/-! ## C5 and C6: settings persistence -/

/-- `on_model_change` only touches the URL field, its readonly state and the
info line: the five persisted session fields are untouched. -/
theorem on_model_change_keeps_session (g : GuiState) :
    (on_model_change g).modelVar = g.modelVar ∧
    (on_model_change g).outVar = g.outVar ∧
    (on_model_change g).ctxVar = g.ctxVar ∧
    (on_model_change g).deviceVar = g.deviceVar ∧
    (on_model_change g).safeSerVar = g.safeSerVar := by
  unfold on_model_change
  cases get_model_info g.modelVar <;> simp

/-- C5: saving the settings and loading them in a fresh session reproduces
all five persisted configuration values, for every interface state whose
model selection is one of the combobox's entries (the only representable
selections: the combobox is read-only over that list). -/
theorem C5_settings_roundtrip (g : GuiState) (h : g.modelVar ∈ populate_values) :
    sessionFiveFields
        (load_settings (SettingsFile.good (save_settings g)) initialGuiState) =
      sessionFiveFields g := by
  simp only [load_settings, save_settings, sessionFiveFields, Option.getD_some,
    if_pos h, Prod.mk.injEq]
  refine ⟨?_, trivial⟩
  simpa using (on_model_change_keeps_session
    { initialGuiState with modelVar := g.modelVar }).1

/-- Instance of C5 at a concrete non-default configuration. -/
theorem C5_settings_roundtrip_witness :
    sessionFiveFields
        (load_settings
          (SettingsFile.good (save_settings
            { initialGuiState with
                outVar := "D:/models", ctxVar := 8192, deviceVar := "cpu",
                safeSerVar := false }))
          initialGuiState) =
      sessionFiveFields
        { initialGuiState with
            outVar := "D:/models", ctxVar := 8192, deviceVar := "cpu",
            safeSerVar := false } :=
  C5_settings_roundtrip _ (by decide)

theorem initial_outVar : initialGuiState.outVar = "./output" := rfl

theorem initial_ctxVar : initialGuiState.ctxVar = 4096 := rfl

/-- The intermediate state of `load_settings` after the model block keeps
the startup output path and context length. -/
theorem load_model_block_fields (m : String) :
    (if m ∈ populate_values then
        on_model_change { initialGuiState with modelVar := m }
      else initialGuiState).outVar = "./output" ∧
    (if m ∈ populate_values then
        on_model_change { initialGuiState with modelVar := m }
      else initialGuiState).ctxVar = 4096 := by
  split
  · exact ⟨(on_model_change_keeps_session _).2.1,
      (on_model_change_keeps_session _).2.2.1⟩
  · exact ⟨rfl, rfl⟩

/-- C6: loading a readable settings record in a fresh session falls back to
a fixed default for every absent field (model selection, "./output", 4096,
"gpu", safe serialization on); a missing file changes nothing; and a
malformed file only appends one line to the diagnostic stream — no error
dialog, configuration left at the defaults. -/
theorem C6_settings_defaults :
    (∀ st : StoredSettings,
      (st.model = none →
        (load_settings (SettingsFile.good st) initialGuiState).modelVar =
          initialGuiState.modelVar) ∧
      (st.output_path = none →
        (load_settings (SettingsFile.good st) initialGuiState).outVar = "./output") ∧
      (st.context_length = none →
        (load_settings (SettingsFile.good st) initialGuiState).ctxVar = 4096) ∧
      (st.device = none →
        (load_settings (SettingsFile.good st) initialGuiState).deviceVar = "gpu") ∧
      (st.safe_serialization = none →
        (load_settings (SettingsFile.good st) initialGuiState).safeSerVar = true)) ∧
    (∀ e : String,
      load_settings (SettingsFile.malformed e) initialGuiState =
        { initialGuiState with
            diagnostics := initialGuiState.diagnostics ++
              ["Ошибка загрузки настроек: " ++ e] } ∧
      (load_settings (SettingsFile.malformed e) initialGuiState).errorDialog = none ∧
      sessionFiveFields (load_settings (SettingsFile.malformed e) initialGuiState) =
        sessionFiveFields initialGuiState) ∧
    load_settings SettingsFile.absent initialGuiState = initialGuiState := by
  refine ⟨?_, fun e => ⟨rfl, rfl, rfl⟩, rfl⟩
  rintro ⟨mo, op, cl, de, ss⟩
  refine ⟨fun h => ?_, fun h => ?_, fun h => ?_, fun h => ?_, fun h => ?_⟩ <;> subst h
  · rfl
  · cases mo with
    | none => rfl
    | some m => exact (load_model_block_fields m).1
  · cases mo with
    | none => rfl
    | some m => exact (load_model_block_fields m).2
  · rfl
  · rfl

/-- Instance of C6: the empty record falls back to the defaults; a malformed
file shows no error dialog. -/
theorem C6_settings_defaults_witness :
    (load_settings
        (SettingsFile.good
          { model := none, output_path := none, context_length := none,
            device := none, safe_serialization := none })
        initialGuiState).outVar = "./output" ∧
    (load_settings
        (SettingsFile.good
          { model := none, output_path := none, context_length := none,
            device := none, safe_serialization := none })
        initialGuiState).deviceVar = "gpu" ∧
    (load_settings (SettingsFile.malformed "Expecting value: line 1 column 1 (char 0)")
        initialGuiState).errorDialog = none :=
  ⟨(C6_settings_defaults.1
      { model := none, output_path := none, context_length := none,
        device := none, safe_serialization := none }).2.1 rfl,
   (C6_settings_defaults.1
      { model := none, output_path := none, context_length := none,
        device := none, safe_serialization := none }).2.2.2.1 rfl,
   (C6_settings_defaults.2.1 "Expecting value: line 1 column 1 (char 0)").2.1⟩

/-! ## C7: output directory layout of a successful run -/

theorem send_log_apply_nocancel (ctx : RunCtx) (hc : ctx.cancelThreshold = none)
    (msg : String) (s : WState) :
    send_log ctx msg s =
      (Except.ok (),
        { s with checks := s.checks + 1, trace := s.trace ++ [Msg.log msg] }) :=
  send_log_unflagged ctx msg s (by simp [isSetAt, hc])

theorem send_status_apply_nocancel (ctx : RunCtx) (hc : ctx.cancelThreshold = none)
    (st : String) (s : WState) :
    send_status ctx st s =
      (Except.ok (),
        { s with checks := s.checks + 1, trace := s.trace ++ [Msg.status st] }) :=
  send_status_unflagged ctx st s (by simp [isSetAt, hc])

theorem send_progress_apply_nocancel (ctx : RunCtx) (hc : ctx.cancelThreshold = none)
    (pct : Nat) (stage : String) (s : WState) :
    send_progress ctx pct stage s =
      (Except.ok (),
        { s with checks := s.checks + 1,
                 trace := s.trace ++ [Msg.progress pct stage] }) :=
  send_progress_unflagged ctx pct stage s (by simp [isSetAt, hc])

/-- In a never-cancelled run the device-selection block sends exactly one
log line (whose text depends on the configuration) and nothing else. -/
theorem deviceStep_apply_nocancel (ctx : RunCtx) (hc : ctx.cancelThreshold = none)
    (s : WState) :
    deviceStep ctx s =
      (Except.ok (),
        { s with checks := s.checks + 1,
                 trace := s.trace ++ [Msg.log (deviceLogText ctx.cfg)] }) := by
  unfold deviceStep deviceLogText
  by_cases h1 : ctx.cfg.FORCE_CPU = true
  · simp only [h1, if_true]
    exact send_log_apply_nocancel ctx hc _ s
  · simp only [h1, if_false, Bool.false_eq_true]
    by_cases h2 : (ctx.cfg.DEVICE == "cpu") = true
    · simp only [h2, if_true]
      exact send_log_apply_nocancel ctx hc _ s
    · simp only [h2, if_false, Bool.false_eq_true]
      by_cases h3 : (ctx.cfg.DEVICE == "cuda") = true
      · simp only [h3, if_true]
        exact send_log_apply_nocancel ctx hc _ s
      · simp only [h3, if_false, Bool.false_eq_true]
        exact send_log_apply_nocancel ctx hc _ s

/-- C7: a successful run (never cancelled, all external calls succeed)
creates one output directory `<repo>-bnb4` directly under the configured
output root — `repo` being the last path segment of the source URL after
stripping trailing slashes — makes it, saves the model weights (with the
configured serialization flag) and the tokenizer into it, saves the image
processor into it exactly when the job is vision-tagged and the image
processor loaded, and targets no other directory with any save or final
mkdir; e.g. source "org/model-a" yields repo "model-a". -/
theorem C7_output_directory (ctx : RunCtx)
    (hc : ctx.cancelThreshold = none)
    (h1 : ctx.env.mkdirOut = Outcome.ok) (h2 : ctx.env.causalLoad = Outcome.ok)
    (h3 : ctx.env.tokenizerLoad = Outcome.ok) (h4 : ctx.env.mkdirFinal = Outcome.ok)
    (h5 : ctx.env.modelSave = Outcome.ok) (h6 : ctx.env.tokenizerSave = Outcome.ok)
    (h7 : ctx.env.imageProcSave = Outcome.ok) :
    finalPathOf ctx.cfg =
      ctx.cfg.OUTPUT_PATH ++ "/" ++ (repoName ctx.cfg.TARGET_MODEL_URL ++ "-bnb4") ∧
    ExtCall.mkdirFinalPath (finalPathOf ctx.cfg) ∈ workerCalls ctx ∧
    ExtCall.saveModel (finalPathOf ctx.cfg) ctx.cfg.SAFE_SERIALIZATION ∈ workerCalls ctx ∧
    ExtCall.saveTokenizer (finalPathOf ctx.cfg) ∈ workerCalls ctx ∧
    (ExtCall.saveImageProcessor (finalPathOf ctx.cfg) ∈ workerCalls ctx ↔
      (ctx.cfg.MODEL_TYPE = "vision" ∧ ctx.env.imageProcLoad = Outcome.ok)) ∧
    (∀ p b, ExtCall.saveModel p b ∈ workerCalls ctx →
      p = finalPathOf ctx.cfg ∧ b = ctx.cfg.SAFE_SERIALIZATION) ∧
    (∀ p, ExtCall.saveTokenizer p ∈ workerCalls ctx → p = finalPathOf ctx.cfg) ∧
    (∀ p, ExtCall.saveImageProcessor p ∈ workerCalls ctx → p = finalPathOf ctx.cfg) ∧
    (∀ p, ExtCall.mkdirFinalPath p ∈ workerCalls ctx → p = finalPathOf ctx.cfg) ∧
    repoName "org/model-a" = "model-a" := by
  rw [workerCalls_eq_body]
  by_cases hv : (ctx.cfg.MODEL_TYPE == "vision") = true
  · cases hvl : ctx.env.visionLoad <;> cases hi : ctx.env.imageProcLoad <;>
    · simp only [workerBody, bind_apply, record_apply, h1, h2, h3, h4, h5, h6, h7,
        hv, hvl, hi, libCall_ok_apply, libCall_err_apply,
        send_log_apply_nocancel ctx hc, send_status_apply_nocancel ctx hc,
        send_progress_apply_nocancel ctx hc, deviceStep_apply_nocancel ctx hc,
        loadModelStep_apply, loadModelResult, imageProcStep, saveStep,
        tryCatchE_apply, pure_apply, WM.pure_def, WM.pure, if_true, if_false,
        Bool.false_eq_true,
        List.cons_append, List.nil_append, List.append_nil, List.append_assoc]
      refine ⟨rfl, by simp [initWState], by simp [initWState], by simp [initWState],
        by simp [initWState, eq_of_beq hv, hi], ?_, ?_, ?_, ?_, rfl⟩
      · intro p b hp
        simp [initWState] at hp
        try exact hp
      · intro p hp
        simp [initWState] at hp
        try exact hp
      · intro p hp
        simp [initWState] at hp
        try exact hp
      · intro p hp
        simp [initWState] at hp
        try exact hp
  · simp only [workerBody, bind_apply, record_apply, h1, h2, h3, h4, h5, h6, h7,
      hv, libCall_ok_apply, send_log_apply_nocancel ctx hc,
      send_status_apply_nocancel ctx hc, send_progress_apply_nocancel ctx hc,
      deviceStep_apply_nocancel ctx hc, loadModelStep_apply, loadModelResult,
      imageProcStep, saveStep, tryCatchE_apply, pure_apply, WM.pure_def, WM.pure,
      if_true, if_false,
      Bool.false_eq_true, List.cons_append, List.nil_append, List.append_nil,
      List.append_assoc]
    have hv2 : ctx.cfg.MODEL_TYPE ≠ "vision" := by
      intro hx
      exact hv (by simp [hx])
    refine ⟨rfl, by simp [initWState], by simp [initWState], by simp [initWState],
      by simp [initWState, hv2], ?_, ?_, ?_, ?_, rfl⟩
    · intro p b hp
      simp [initWState] at hp
      try exact hp
    · intro p hp
      simp [initWState] at hp
      try exact hp
    · intro p hp
      simp [initWState] at hp
      try exact hp
    · intro p hp
      simp [initWState] at hp
      try exact hp

/-- Instance of C7: the successful text run on "org/model-a" saves the
model and tokenizer into "./output/model-a-bnb4" and no image-processor
files. -/
theorem C7_output_directory_witness :
    ExtCall.saveModel "./output/model-a-bnb4" true ∈ workerCalls ctxTextAllOk ∧
    ExtCall.saveTokenizer "./output/model-a-bnb4" ∈ workerCalls ctxTextAllOk ∧
    (ExtCall.saveImageProcessor "./output/model-a-bnb4" ∈ workerCalls ctxTextAllOk ↔
      (ctxTextAllOk.cfg.MODEL_TYPE = "vision" ∧
        ctxTextAllOk.env.imageProcLoad = Outcome.ok)) :=
  ⟨(C7_output_directory ctxTextAllOk rfl rfl rfl rfl rfl rfl rfl rfl).2.2.1,
   (C7_output_directory ctxTextAllOk rfl rfl rfl rfl rfl rfl rfl rfl).2.2.2.1,
   (C7_output_directory ctxTextAllOk rfl rfl rfl rfl rfl rfl rfl rfl).2.2.2.2.1⟩
